import Mathlib

/-!
Verification of the multi-agent research assistant pipeline.

The repository holds two copies of the same workflow, `src/agents.py`
(command-line entry) and `src/main.py` (Gradio entry).  Both build a
five-node LangGraph state machine over a `ResearchState` dictionary:
query_analyser -> search_executor -> content_synthesiser ->
follow_up_generator -> END, with every stage routing to an `error` node
(the `error_handler`) on failure.

The embedding below models the state dictionary as a structure, each
stage as a pure function of the state plus the outcome of its external
collaborator call, and the compiled graph as a straight-line driver that
routes on `current_step` exactly as the conditional-edge tables do.
External collaborators (the chat completion plus its pydantic parse, and
the Serper search call) are modelled as `Except String` outcomes: the
`.error` case stands for any exception raised inside the stage `try`
block, whose string rendering the stage interpolates into its error
message.  The driver also counts the external calls a run performs, so
that the duplicate-execution behaviour of `agents.py` (stream the graph,
then invoke it again) is observable.
-/

/-- One entry of the list built by `SerperSearchTool.invoke`: the Python
code stores `item.get("title")`, `item.get("link")`, `item.get("snippet")`
under the keys `title`, `url`, `content`; each value may be `None`. -/
structure SearchResult where
  title : Option String
  url : Option String
  content : Option String
  deriving Repr, DecidableEq

/-- One element of the `organic` list of a Serper HTTP response; every
field may be absent (`item.get` returns `None` then). -/
structure OrganicItem where
  title : Option String
  link : Option String
  snippet : Option String
  deriving Repr, DecidableEq

/-- The JSON body of a successful Serper HTTP response, as far as
`SerperSearchTool.invoke` inspects it: the `organic` key may be missing
(`data.get("organic", [])`). -/
structure SerperResponse where
  organic : Option (List OrganicItem)
  deriving Repr, DecidableEq

namespace SerperSearchTool

/-- `SerperSearchTool.invoke` over an already-received successful response
body: take at most `k` entries of the `organic` list (empty if the key is
missing) and re-key each one, passing missing fields through as `None`.
`agents.py` constructs the tool with `k = 10`, `main.py` with `k = 5`. -/
def invoke (k : Nat) (data : SerperResponse) : List SearchResult :=
  ((data.organic.getD []).take k).map fun item =>
    { title := item.title, url := item.link, content := item.snippet }

end SerperSearchTool

/-- The `ResearchState` TypedDict.  `run_research_workflow` initialises
every key, and each stage copies the whole dictionary (`{**state, ...}`),
so the state is modelled with all fields present. -/
structure ResearchState where
  user_query : String
  search_queries : List String
  search_results : List SearchResult
  research_summary : String
  follow_up_questions : List String
  current_step : String
  errors : List String
  deriving Repr, DecidableEq

/-- One parsed entry of the `SearchQueries` pydantic model. -/
structure SearchQuery where
  query : String
  rationale : String
  deriving Repr, DecidableEq

/-- The parsed `ResearchSummary` pydantic model. -/
structure ResearchSummary where
  summary : String
  key_insights : List String
  sources_consulted : List String
  deriving Repr, DecidableEq

/-- One parsed entry of the `FollowUpQuestions` pydantic model. -/
structure FollowUpQuestion where
  question : String
  rationale : String
  deriving Repr, DecidableEq

/-- Outcomes of the external collaborator calls a run can make.  Each
LLM-backed stage performs `LLM.invoke` followed by `parser.parse` inside
one `try` block; the pair is modelled as a single fallible outcome whose
`.error` string is the rendered exception.  `search` gives the outcome of
`search_tool.invoke` per query string. -/
structure Oracle where
  analyse : Except String (List SearchQuery)
  search : String → Except String (List SearchResult)
  synthesise : Except String ResearchSummary
  followUp : Except String (List FollowUpQuestion)

/-- The `search_executor` loop body: `results.extend(search_tool.invoke(q))`
for each query in order; the first raising call aborts the loop and the
locally accumulated list is discarded. -/
def runSearches (search : String → Except String (List SearchResult)) :
    List String → Except String (List SearchResult)
  | [] => .ok []
  | q :: qs =>
    match search q with
    | .error e => .error e
    | .ok rs =>
      match runSearches search qs with
      | .error e => .error e
      | .ok rest => .ok (rs ++ rest)

/-- Number of `search_tool.invoke` calls the `search_executor` loop makes:
one per query until (and including) the first failing call. -/
def searchCallCount (search : String → Except String (List SearchResult)) :
    List String → Nat
  | [] => 0
  | q :: qs =>
    match search q with
    | .error _ => 1
    | .ok _ => 1 + searchCallCount search qs

/-- `search_executor` (identical in `agents.py` and `main.py` up to
progress printing): run every search in order, set `search_results` to the
concatenation and advance, or on any exception append
`"search_executor: <e>"` to `errors` and set the `error` tag. -/
def search_executor (search : String → Except String (List SearchResult))
    (state : ResearchState) : ResearchState :=
  match runSearches search state.search_queries with
  | .ok results =>
    { state with search_results := results, current_step := "content_synthesiser" }
  | .error e =>
    { state with errors := state.errors ++ ["search_executor: " ++ e],
                 current_step := "error" }

/-- `content_synthesiser` (identical in both files up to printing): on a
parsed response keep only `summary.summary` and advance, otherwise append
`"content_synthesiser: <e>"` and set the `error` tag. -/
def content_synthesiser (llm : Except String ResearchSummary)
    (state : ResearchState) : ResearchState :=
  match llm with
  | .ok summary =>
    { state with research_summary := summary.summary,
                 current_step := "follow_up_generator" }
  | .error e =>
    { state with errors := state.errors ++ ["content_synthesiser: " ++ e],
                 current_step := "error" }

/-- `error_handler` (identical in both files): print the accumulated
errors to the console and set `current_step` to `"complete"`; no other
field is touched. -/
def error_handler (state : ResearchState) : ResearchState :=
  { state with current_step := "complete" }

/-- The initial state built by `run_research_workflow` (identical in both
files). -/
def initialState (question : String) : ResearchState :=
  { user_query := question
    search_queries := []
    search_results := []
    research_summary := ""
    follow_up_questions := []
    current_step := "query_analyser"
    errors := [] }

/-- The dictionary returned by `run_research_workflow` (shared fields;
`main.py` additionally returns a constant empty `progress` list). -/
structure WorkflowResult where
  original_query : String
  search_queries : List String
  research_summary : String
  follow_up_questions : List String
  errors : List String
  deriving Repr, DecidableEq

/-- Projection of a final graph state into the returned dictionary
(identical in both files). -/
def toResult (s : ResearchState) : WorkflowResult :=
  { original_query := s.user_query
    search_queries := s.search_queries
    research_summary := s.research_summary
    follow_up_questions := s.follow_up_questions
    errors := s.errors }

namespace Agents

/-- `query_analyser` in `agents.py`: on a parsed response set
`search_queries` to ALL parsed query strings (no truncation in this file)
and advance, otherwise append `"query_analyser: <e>"` and set the `error`
tag. -/
def query_analyser (llm : Except String (List SearchQuery))
    (state : ResearchState) : ResearchState :=
  match llm with
  | .ok queries =>
    { state with search_queries := queries.map (·.query),
                 current_step := "search_executor" }
  | .error e =>
    { state with errors := state.errors ++ ["query_analyser: " ++ e],
                 current_step := "error" }

/-- `follow_up_generator` in `agents.py`: keep all parsed questions (no
truncation in this file) and set the `"complete"` tag, or on exception
append `"follow_up_generator: <e>"` and set the `error` tag. -/
def follow_up_generator (llm : Except String (List FollowUpQuestion))
    (state : ResearchState) : ResearchState :=
  match llm with
  | .ok questions =>
    { state with follow_up_questions := questions.map (·.question),
                 current_step := "complete" }
  | .error e =>
    { state with errors := state.errors ++ ["follow_up_generator: " ++ e],
                 current_step := "error" }

/-- One execution of the compiled graph of `agents.py` (`build_graph`):
entry at `query_analyser`; after each stage the conditional-edge table
routes on `current_step`, sending `"error"` to the `error` node and the
success tag to the next stage; the `error` node routes `"complete"` to
END.  The second component counts the external collaborator calls made
(one LLM call per LLM-backed stage that runs, plus one search call per
query attempted). -/
def runGraph (o : Oracle) (s0 : ResearchState) : ResearchState × Nat :=
  let s1 := query_analyser o.analyse s0
  if s1.current_step = "error" then (error_handler s1, 1)
  else
    let s2 := search_executor o.search s1
    let c2 := 1 + searchCallCount o.search s1.search_queries
    if s2.current_step = "error" then (error_handler s2, c2)
    else
      let s3 := content_synthesiser o.synthesise s2
      let c3 := c2 + 1
      if s3.current_step = "error" then (error_handler s3, c3)
      else
        let s4 := follow_up_generator o.followUp s3
        let c4 := c3 + 1
        if s4.current_step = "error" then (error_handler s4, c4)
        else (s4, c4)

/-- `run_research_workflow` in `agents.py`: it first drains
`wf.stream(initial_state, stream_mode="updates")` (which executes every
node of the graph, making all external calls) and then calls
`wf.invoke(initial_state)` on the same fresh initial state (executing the
whole graph a second time).  The returned dictionary is built from the
final state of the second execution; the call count sums both executions. -/
def run_research_workflow (o : Oracle) (question : String) :
    WorkflowResult × Nat :=
  let s0 := initialState question
  let streamed := runGraph o s0
  let final := runGraph o s0
  (toResult final.1, streamed.2 + final.2)

end Agents

namespace MainApp

/-- `query_analyser` in `main.py`: on a parsed response keep only the
first 3 queries (`parser.parse(resp.content).queries[:3]`) and advance;
a response with fewer than 3 queries is NOT an error — slicing keeps
whatever is there.  On exception append `"query_analyser: <e>"` and set
the `error` tag. -/
def query_analyser (llm : Except String (List SearchQuery))
    (state : ResearchState) : ResearchState :=
  match llm with
  | .ok queries =>
    let queries := queries.take 3
    { state with search_queries := queries.map (·.query),
                 current_step := "search_executor" }
  | .error e =>
    { state with errors := state.errors ++ ["query_analyser: " ++ e],
                 current_step := "error" }

/-- `follow_up_generator` in `main.py`: keep only the first 2 parsed
questions (`questions[:2]`) and set the `"complete"` tag, or on exception
append `"follow_up_generator: <e>"` and set the `error` tag. -/
def follow_up_generator (llm : Except String (List FollowUpQuestion))
    (state : ResearchState) : ResearchState :=
  match llm with
  | .ok questions =>
    let questions := questions.take 2
    { state with follow_up_questions := questions.map (·.question),
                 current_step := "complete" }
  | .error e =>
    { state with errors := state.errors ++ ["follow_up_generator: " ++ e],
                 current_step := "error" }

/-- One execution of the compiled graph of `main.py` (`build_graph`);
same wiring as in `agents.py`, over the stage variants of this file. -/
def runGraph (o : Oracle) (s0 : ResearchState) : ResearchState × Nat :=
  let s1 := query_analyser o.analyse s0
  if s1.current_step = "error" then (error_handler s1, 1)
  else
    let s2 := search_executor o.search s1
    let c2 := 1 + searchCallCount o.search s1.search_queries
    if s2.current_step = "error" then (error_handler s2, c2)
    else
      let s3 := content_synthesiser o.synthesise s2
      let c3 := c2 + 1
      if s3.current_step = "error" then (error_handler s3, c3)
      else
        let s4 := follow_up_generator o.followUp s3
        let c4 := c3 + 1
        if s4.current_step = "error" then (error_handler s4, c4)
        else (s4, c4)

/-- `run_research_workflow` in `main.py`: a single `wf.invoke` on the
fresh initial state (the streaming pass was removed there, with a comment
naming the duplicate-execution pitfall). -/
def run_research_workflow (o : Oracle) (question : String) :
    WorkflowResult × Nat :=
  let final := runGraph o (initialState question)
  (toResult final.1, final.2)

end MainApp

/-- The four stage names that can tag an error entry. -/
def stageNames : List String :=
  ["query_analyser", "search_executor", "content_synthesiser", "follow_up_generator"]

/-- Fields owned by stages strictly after `st` (plus the fields `st` itself
would have set) are still at their initial empty values in `s`. -/
def ownedAfterEmpty (st : String) (s : ResearchState) : Prop :=
  (st = "query_analyser" →
    s.search_queries = [] ∧ s.search_results = [] ∧
    s.research_summary = "" ∧ s.follow_up_questions = []) ∧
  (st = "search_executor" →
    s.search_results = [] ∧ s.research_summary = "" ∧ s.follow_up_questions = []) ∧
  (st = "content_synthesiser" →
    s.research_summary = "" ∧ s.follow_up_questions = []) ∧
  (st = "follow_up_generator" → s.follow_up_questions = [])

/-- Concrete search result used by the query-major-order witness. -/
def c5r1a : SearchResult := { title := some "r1a", url := some "u1a", content := some "c1a" }

/-- Concrete search result used by the query-major-order witness. -/
def c5r1b : SearchResult := { title := some "r1b", url := some "u1b", content := some "c1b" }

/-- Concrete search result used by the query-major-order witness. -/
def c5r2a : SearchResult := { title := some "r2a", url := some "u2a", content := some "c2a" }

/-- Per-query result lists of the query-major-order witness: `q1` returns
two results, `q2` returns one. -/
def c5res : String → List SearchResult :=
  fun q => if q = "q1" then [c5r1a, c5r1b] else if q = "q2" then [c5r2a] else []

/-- State entering `search_executor` in the query-major-order witness. -/
def c5state : ResearchState :=
  { initialState "x" with search_queries := ["q1", "q2"], current_step := "search_executor" }

/-- Concrete search result used by the all-or-nothing witness. -/
def c4result : SearchResult := { title := some "t", url := some "u", content := some "c" }

/-- Search collaborator of the all-or-nothing witness: the first query
succeeds, the second raises a transport failure. -/
def c4search : String → Except String (List SearchResult) :=
  fun q => if q = "q2" then .error "transport failure" else .ok [c4result]

/-- State entering `search_executor` in the all-or-nothing witness. -/
def c4state : ResearchState :=
  { initialState "x" with search_queries := ["q1", "q2"], current_step := "search_executor" }

/-- Oracle of the failure-isolation witness: the query-analysis completion
raises, everything downstream would have succeeded. -/
def c3oracle : Oracle :=
  { analyse := .error "503 Service Unavailable"
    search := fun _ => .ok []
    synthesise := .ok { summary := "s", key_insights := [], sources_consulted := [] }
    followUp := .ok [] }

/-- Oracle failing only on the fourth parsed query: the `agents.py`
pipeline (which searches every parsed query) fails in `search_executor`,
while the `main.py` pipeline (which slices to the first three queries)
never issues the failing call and succeeds. -/
def c3oracle4q : Oracle :=
  { analyse := .ok [⟨"q1", "r1"⟩, ⟨"q2", "r2"⟩, ⟨"q3", "r3"⟩, ⟨"q4", "r4"⟩]
    search := fun q => if q = "q4" then .error "boom" else .ok []
    synthesise := .ok { summary := "s", key_insights := [], sources_consulted := [] }
    followUp := .ok [] }

/-- Fully successful oracle used to count external calls: three parsed
queries, one search result per query, a summary, two follow-ups.  A single
graph execution therefore makes 6 external calls (1 LLM + 3 searches +
1 LLM + 1 LLM). -/
def c1oracle : Oracle :=
  { analyse := .ok [⟨"q1", "r1"⟩, ⟨"q2", "r2"⟩, ⟨"q3", "r3"⟩]
    search := fun _ => .ok [c5r1a]
    synthesise := .ok { summary := "sum", key_insights := [], sources_consulted := [] }
    followUp := .ok [⟨"f1", "fr1"⟩, ⟨"f2", "fr2"⟩] }

/-- Serper response body with three organic items, the first of which is
missing every field. -/
def c10data : SerperResponse :=
  { organic := some [ { title := none, link := none, snippet := none },
                      { title := some "t1", link := some "l1", snippet := some "s1" },
                      { title := some "t2", link := none, snippet := some "s2" } ] }

/-- If every query in the list succeeds, `runSearches` returns the
query-major concatenation of the per-query result lists. -/
theorem runSearches_ok (res : String → List SearchResult)
    (search : String → Except String (List SearchResult)) :
    ∀ qs : List String, (∀ q ∈ qs, search q = .ok (res q)) →
      runSearches search qs = .ok ((qs.map res).flatten)
  | [], _ => by simp [runSearches]
  | q :: qs, h => by
    have hq := h q (List.mem_cons_self q qs)
    have ih := runSearches_ok res search qs (fun p hp => h p (List.mem_cons_of_mem q hp))
    simp [runSearches, hq, ih]

/-- If any query in the list fails, `runSearches` fails. -/
theorem runSearches_error (search : String → Except String (List SearchResult)) :
    ∀ qs : List String, (∃ q ∈ qs, ∃ e, search q = .error e) →
      ∃ e, runSearches search qs = .error e
  | [], h => by simp at h
  | q :: qs, h => by
    cases hq : search q with
    | error e => exact ⟨e, by simp [runSearches, hq]⟩
    | ok rs =>
      have hqs : ∃ p ∈ qs, ∃ e, search p = .error e := by
        rcases h with ⟨p, hp, e, he⟩
        rcases List.mem_cons.mp hp with rfl | hmem
        · rw [hq] at he; cases he
        · exact ⟨p, hmem, e, he⟩
      rcases runSearches_error search qs hqs with ⟨e, he⟩
      exact ⟨e, by simp [runSearches, hq, he]⟩

/-- Outcome of the `agents.py` graph when the query-analysis completion
fails. -/
theorem agents_runGraph_analyse_error (o : Oracle) (s0 : ResearchState) (e : String)
    (h : o.analyse = .error e) :
    Agents.runGraph o s0 =
      ({ s0 with errors := s0.errors ++ ["query_analyser: " ++ e],
                 current_step := "complete" }, 1) := by
  simp [Agents.runGraph, Agents.query_analyser, error_handler, h]

/-- Outcome of the `agents.py` graph when analysis succeeds and some
search call fails. -/
theorem agents_runGraph_search_error (o : Oracle) (s0 : ResearchState)
    (qs : List SearchQuery) (e : String)
    (ha : o.analyse = .ok qs)
    (hs : runSearches o.search (qs.map (·.query)) = .error e) :
    Agents.runGraph o s0 =
      ({ s0 with search_queries := qs.map (·.query),
                 errors := s0.errors ++ ["search_executor: " ++ e],
                 current_step := "complete" },
       1 + searchCallCount o.search (qs.map (·.query))) := by
  simp [Agents.runGraph, Agents.query_analyser, search_executor, error_handler, ha, hs]

/-- Outcome of the `agents.py` graph when the synthesis completion
fails. -/
theorem agents_runGraph_synth_error (o : Oracle) (s0 : ResearchState)
    (qs : List SearchQuery) (rs : List SearchResult) (e : String)
    (ha : o.analyse = .ok qs)
    (hs : runSearches o.search (qs.map (·.query)) = .ok rs)
    (hc : o.synthesise = .error e) :
    Agents.runGraph o s0 =
      ({ s0 with search_queries := qs.map (·.query),
                 search_results := rs,
                 errors := s0.errors ++ ["content_synthesiser: " ++ e],
                 current_step := "complete" },
       1 + searchCallCount o.search (qs.map (·.query)) + 1) := by
  simp [Agents.runGraph, Agents.query_analyser, search_executor, content_synthesiser,
        error_handler, ha, hs, hc]

/-- Outcome of the `agents.py` graph when the follow-up completion
fails. -/
theorem agents_runGraph_fu_error (o : Oracle) (s0 : ResearchState)
    (qs : List SearchQuery) (rs : List SearchResult) (sm : ResearchSummary) (e : String)
    (ha : o.analyse = .ok qs)
    (hs : runSearches o.search (qs.map (·.query)) = .ok rs)
    (hc : o.synthesise = .ok sm)
    (hf : o.followUp = .error e) :
    Agents.runGraph o s0 =
      ({ s0 with search_queries := qs.map (·.query),
                 search_results := rs,
                 research_summary := sm.summary,
                 errors := s0.errors ++ ["follow_up_generator: " ++ e],
                 current_step := "complete" },
       1 + searchCallCount o.search (qs.map (·.query)) + 1 + 1) := by
  simp [Agents.runGraph, Agents.query_analyser, search_executor, content_synthesiser,
        Agents.follow_up_generator, error_handler, ha, hs, hc, hf]

/-- Outcome of the `agents.py` graph when every stage succeeds. -/
theorem agents_runGraph_success (o : Oracle) (s0 : ResearchState)
    (qs : List SearchQuery) (rs : List SearchResult) (sm : ResearchSummary)
    (fu : List FollowUpQuestion)
    (ha : o.analyse = .ok qs)
    (hs : runSearches o.search (qs.map (·.query)) = .ok rs)
    (hc : o.synthesise = .ok sm)
    (hf : o.followUp = .ok fu) :
    Agents.runGraph o s0 =
      ({ s0 with search_queries := qs.map (·.query),
                 search_results := rs,
                 research_summary := sm.summary,
                 follow_up_questions := fu.map (·.question),
                 current_step := "complete" },
       1 + searchCallCount o.search (qs.map (·.query)) + 1 + 1) := by
  simp [Agents.runGraph, Agents.query_analyser, search_executor, content_synthesiser,
        Agents.follow_up_generator, ha, hs, hc, hf]

/-- Outcome of the `main.py` graph when the query-analysis completion
fails. -/
theorem main_runGraph_analyse_error (o : Oracle) (s0 : ResearchState) (e : String)
    (h : o.analyse = .error e) :
    MainApp.runGraph o s0 =
      ({ s0 with errors := s0.errors ++ ["query_analyser: " ++ e],
                 current_step := "complete" }, 1) := by
  simp [MainApp.runGraph, MainApp.query_analyser, error_handler, h]

/-- Outcome of the `main.py` graph when analysis succeeds and some search
call fails. -/
theorem main_runGraph_search_error (o : Oracle) (s0 : ResearchState)
    (qs : List SearchQuery) (e : String)
    (ha : o.analyse = .ok qs)
    (hs : runSearches o.search ((qs.map (·.query)).take 3) = .error e) :
    MainApp.runGraph o s0 =
      ({ s0 with search_queries := (qs.map (·.query)).take 3,
                 errors := s0.errors ++ ["search_executor: " ++ e],
                 current_step := "complete" },
       1 + searchCallCount o.search ((qs.map (·.query)).take 3)) := by
  simp [MainApp.runGraph, MainApp.query_analyser, search_executor, error_handler, ha, hs]

/-- Outcome of the `main.py` graph when the synthesis completion fails. -/
theorem main_runGraph_synth_error (o : Oracle) (s0 : ResearchState)
    (qs : List SearchQuery) (rs : List SearchResult) (e : String)
    (ha : o.analyse = .ok qs)
    (hs : runSearches o.search ((qs.map (·.query)).take 3) = .ok rs)
    (hc : o.synthesise = .error e) :
    MainApp.runGraph o s0 =
      ({ s0 with search_queries := (qs.map (·.query)).take 3,
                 search_results := rs,
                 errors := s0.errors ++ ["content_synthesiser: " ++ e],
                 current_step := "complete" },
       1 + searchCallCount o.search ((qs.map (·.query)).take 3) + 1) := by
  simp [MainApp.runGraph, MainApp.query_analyser, search_executor, content_synthesiser,
        error_handler, ha, hs, hc]

/-- Outcome of the `main.py` graph when the follow-up completion fails. -/
theorem main_runGraph_fu_error (o : Oracle) (s0 : ResearchState)
    (qs : List SearchQuery) (rs : List SearchResult) (sm : ResearchSummary) (e : String)
    (ha : o.analyse = .ok qs)
    (hs : runSearches o.search ((qs.map (·.query)).take 3) = .ok rs)
    (hc : o.synthesise = .ok sm)
    (hf : o.followUp = .error e) :
    MainApp.runGraph o s0 =
      ({ s0 with search_queries := (qs.map (·.query)).take 3,
                 search_results := rs,
                 research_summary := sm.summary,
                 errors := s0.errors ++ ["follow_up_generator: " ++ e],
                 current_step := "complete" },
       1 + searchCallCount o.search ((qs.map (·.query)).take 3) + 1 + 1) := by
  simp [MainApp.runGraph, MainApp.query_analyser, search_executor, content_synthesiser,
        MainApp.follow_up_generator, error_handler, ha, hs, hc, hf]

/-- Outcome of the `main.py` graph when every stage succeeds. -/
theorem main_runGraph_success (o : Oracle) (s0 : ResearchState)
    (qs : List SearchQuery) (rs : List SearchResult) (sm : ResearchSummary)
    (fu : List FollowUpQuestion)
    (ha : o.analyse = .ok qs)
    (hs : runSearches o.search ((qs.map (·.query)).take 3) = .ok rs)
    (hc : o.synthesise = .ok sm)
    (hf : o.followUp = .ok fu) :
    MainApp.runGraph o s0 =
      ({ s0 with search_queries := (qs.map (·.query)).take 3,
                 search_results := rs,
                 research_summary := sm.summary,
                 follow_up_questions := (fu.map (·.question)).take 2,
                 current_step := "complete" },
       1 + searchCallCount o.search ((qs.map (·.query)).take 3) + 1 + 1) := by
  simp [MainApp.runGraph, MainApp.query_analyser, search_executor, content_synthesiser,
        MainApp.follow_up_generator, ha, hs, hc, hf]

/-- The final state of every `agents.py` graph execution carries the
`"complete"` tag. -/
theorem agents_final_step_complete (o : Oracle) (s0 : ResearchState) :
    ((Agents.runGraph o s0).1).current_step = "complete" := by
  cases ha : o.analyse with
  | error e => rw [agents_runGraph_analyse_error o s0 e ha]
  | ok qs =>
    cases hs : runSearches o.search (qs.map (·.query)) with
    | error e => rw [agents_runGraph_search_error o s0 qs e ha hs]
    | ok rs =>
      cases hc : o.synthesise with
      | error e => rw [agents_runGraph_synth_error o s0 qs rs e ha hs hc]
      | ok sm =>
        cases hf : o.followUp with
        | error e => rw [agents_runGraph_fu_error o s0 qs rs sm e ha hs hc hf]
        | ok fu => rw [agents_runGraph_success o s0 qs rs sm fu ha hs hc hf]

/-- The final state of every `main.py` graph execution carries the
`"complete"` tag. -/
theorem main_final_step_complete (o : Oracle) (s0 : ResearchState) :
    ((MainApp.runGraph o s0).1).current_step = "complete" := by
  cases ha : o.analyse with
  | error e => rw [main_runGraph_analyse_error o s0 e ha]
  | ok qs =>
    cases hs : runSearches o.search ((qs.map (·.query)).take 3) with
    | error e => rw [main_runGraph_search_error o s0 qs e ha hs]
    | ok rs =>
      cases hc : o.synthesise with
      | error e => rw [main_runGraph_synth_error o s0 qs rs e ha hs hc]
      | ok sm =>
        cases hf : o.followUp with
        | error e => rw [main_runGraph_fu_error o s0 qs rs sm e ha hs hc hf]
        | ok fu => rw [main_runGraph_success o s0 qs rs sm fu ha hs hc hf]

/-- Starting from an empty error list, an `agents.py` graph execution
accumulates at most one error entry. -/
theorem agents_final_errors_len (o : Oracle) (s0 : ResearchState) (h : s0.errors = []) :
    ((Agents.runGraph o s0).1).errors.length ≤ 1 := by
  cases ha : o.analyse with
  | error e => rw [agents_runGraph_analyse_error o s0 e ha]; simp [h]
  | ok qs =>
    cases hs : runSearches o.search (qs.map (·.query)) with
    | error e => rw [agents_runGraph_search_error o s0 qs e ha hs]; simp [h]
    | ok rs =>
      cases hc : o.synthesise with
      | error e => rw [agents_runGraph_synth_error o s0 qs rs e ha hs hc]; simp [h]
      | ok sm =>
        cases hf : o.followUp with
        | error e => rw [agents_runGraph_fu_error o s0 qs rs sm e ha hs hc hf]; simp [h]
        | ok fu => rw [agents_runGraph_success o s0 qs rs sm fu ha hs hc hf]; simp [h]

/-- Starting from an empty error list, a `main.py` graph execution
accumulates at most one error entry. -/
theorem main_final_errors_len (o : Oracle) (s0 : ResearchState) (h : s0.errors = []) :
    ((MainApp.runGraph o s0).1).errors.length ≤ 1 := by
  cases ha : o.analyse with
  | error e => rw [main_runGraph_analyse_error o s0 e ha]; simp [h]
  | ok qs =>
    cases hs : runSearches o.search ((qs.map (·.query)).take 3) with
    | error e => rw [main_runGraph_search_error o s0 qs e ha hs]; simp [h]
    | ok rs =>
      cases hc : o.synthesise with
      | error e => rw [main_runGraph_synth_error o s0 qs rs e ha hs hc]; simp [h]
      | ok sm =>
        cases hf : o.followUp with
        | error e => rw [main_runGraph_fu_error o s0 qs rs sm e ha hs hc hf]; simp [h]
        | ok fu => rw [main_runGraph_success o s0 qs rs sm fu ha hs hc hf]; simp [h]

/-- No `agents.py` graph execution changes `user_query`. -/
theorem agents_runGraph_user_query (o : Oracle) (s0 : ResearchState) :
    ((Agents.runGraph o s0).1).user_query = s0.user_query := by
  cases ha : o.analyse with
  | error e => rw [agents_runGraph_analyse_error o s0 e ha]
  | ok qs =>
    cases hs : runSearches o.search (qs.map (·.query)) with
    | error e => rw [agents_runGraph_search_error o s0 qs e ha hs]
    | ok rs =>
      cases hc : o.synthesise with
      | error e => rw [agents_runGraph_synth_error o s0 qs rs e ha hs hc]
      | ok sm =>
        cases hf : o.followUp with
        | error e => rw [agents_runGraph_fu_error o s0 qs rs sm e ha hs hc hf]
        | ok fu => rw [agents_runGraph_success o s0 qs rs sm fu ha hs hc hf]

/-- No `main.py` graph execution changes `user_query`. -/
theorem main_runGraph_user_query (o : Oracle) (s0 : ResearchState) :
    ((MainApp.runGraph o s0).1).user_query = s0.user_query := by
  cases ha : o.analyse with
  | error e => rw [main_runGraph_analyse_error o s0 e ha]
  | ok qs =>
    cases hs : runSearches o.search ((qs.map (·.query)).take 3) with
    | error e => rw [main_runGraph_search_error o s0 qs e ha hs]
    | ok rs =>
      cases hc : o.synthesise with
      | error e => rw [main_runGraph_synth_error o s0 qs rs e ha hs hc]
      | ok sm =>
        cases hf : o.followUp with
        | error e => rw [main_runGraph_fu_error o s0 qs rs sm e ha hs hc hf]
        | ok fu => rw [main_runGraph_success o s0 qs rs sm fu ha hs hc hf]

/-- A failing `agents.py` run has its first error entry tagged with the
failing stage name and leaves downstream fields at their initial empty
values. -/
theorem agents_failure_isolated (o : Oracle) (q : String)
    (h : ((Agents.runGraph o (initialState q)).1).errors ≠ []) :
    1 ≤ ((Agents.runGraph o (initialState q)).1).errors.length ∧
    ∃ st e, st ∈ stageNames ∧
      ((Agents.runGraph o (initialState q)).1).errors.head? = some (st ++ ": " ++ e) ∧
      ownedAfterEmpty st (Agents.runGraph o (initialState q)).1 := by
  cases ha : o.analyse with
  | error e =>
    rw [agents_runGraph_analyse_error o (initialState q) e ha]
    exact ⟨by simp [initialState], "query_analyser", e, by decide,
      by simp [initialState], by simp [ownedAfterEmpty, initialState]⟩
  | ok qs =>
    cases hs : runSearches o.search (qs.map (·.query)) with
    | error e =>
      rw [agents_runGraph_search_error o (initialState q) qs e ha hs]
      exact ⟨by simp [initialState], "search_executor", e, by decide,
        by simp [initialState], by simp [ownedAfterEmpty, initialState]⟩
    | ok rs =>
      cases hc : o.synthesise with
      | error e =>
        rw [agents_runGraph_synth_error o (initialState q) qs rs e ha hs hc]
        exact ⟨by simp [initialState], "content_synthesiser", e, by decide,
          by simp [initialState], by simp [ownedAfterEmpty, initialState]⟩
      | ok sm =>
        cases hf : o.followUp with
        | error e =>
          rw [agents_runGraph_fu_error o (initialState q) qs rs sm e ha hs hc hf]
          exact ⟨by simp [initialState], "follow_up_generator", e, by decide,
            by simp [initialState], by simp [ownedAfterEmpty, initialState]⟩
        | ok fu =>
          rw [agents_runGraph_success o (initialState q) qs rs sm fu ha hs hc hf] at h
          simp [initialState] at h

/-- A failing `main.py` run has its first error entry tagged with the
failing stage name and leaves downstream fields at their initial empty
values. -/
theorem main_failure_isolated (o : Oracle) (q : String)
    (h : ((MainApp.runGraph o (initialState q)).1).errors ≠ []) :
    1 ≤ ((MainApp.runGraph o (initialState q)).1).errors.length ∧
    ∃ st e, st ∈ stageNames ∧
      ((MainApp.runGraph o (initialState q)).1).errors.head? = some (st ++ ": " ++ e) ∧
      ownedAfterEmpty st (MainApp.runGraph o (initialState q)).1 := by
  cases ha : o.analyse with
  | error e =>
    rw [main_runGraph_analyse_error o (initialState q) e ha]
    exact ⟨by simp [initialState], "query_analyser", e, by decide,
      by simp [initialState], by simp [ownedAfterEmpty, initialState]⟩
  | ok qs =>
    cases hs : runSearches o.search ((qs.map (·.query)).take 3) with
    | error e =>
      rw [main_runGraph_search_error o (initialState q) qs e ha hs]
      exact ⟨by simp [initialState], "search_executor", e, by decide,
        by simp [initialState], by simp [ownedAfterEmpty, initialState]⟩
    | ok rs =>
      cases hc : o.synthesise with
      | error e =>
        rw [main_runGraph_synth_error o (initialState q) qs rs e ha hs hc]
        exact ⟨by simp [initialState], "content_synthesiser", e, by decide,
          by simp [initialState], by simp [ownedAfterEmpty, initialState]⟩
      | ok sm =>
        cases hf : o.followUp with
        | error e =>
          rw [main_runGraph_fu_error o (initialState q) qs rs sm e ha hs hc hf]
          exact ⟨by simp [initialState], "follow_up_generator", e, by decide,
            by simp [initialState], by simp [ownedAfterEmpty, initialState]⟩
        | ok fu =>
          rw [main_runGraph_success o (initialState q) qs rs sm fu ha hs hc hf] at h
          simp [initialState] at h

/-- Claim C1 (code bug): the spec requires each logical run to execute
every underlying stage computation exactly once even when a
progress-observation mode is offered.  `run_research_workflow` in
`agents.py` violates this: it first drains `wf.stream(initial_state)`
(which executes every node and all external calls) and then calls
`wf.invoke(initial_state)`, executing the whole graph a second time — in
general twice the external calls of a single graph execution, and at the
fully successful `c1oracle` 12 calls where one execution makes 6.
`run_research_workflow` in `main.py` makes exactly the calls of a single
execution, as the spec demands. -/
theorem c1_agents_workflow_runs_graph_twice :
    (∀ (o : Oracle) (q : String),
      (Agents.run_research_workflow o q).2 =
        2 * (Agents.runGraph o (initialState q)).2 ∧
      (MainApp.run_research_workflow o q).2 =
        (MainApp.runGraph o (initialState q)).2) ∧
    (Agents.runGraph c1oracle (initialState "What is photosynthesis?")).2 = 6 ∧
    (Agents.run_research_workflow c1oracle "What is photosynthesis?").2 = 12 ∧
    (MainApp.run_research_workflow c1oracle "What is photosynthesis?").2 = 6 := by
  refine ⟨fun o q => ⟨?_, rfl⟩, by decide, by decide, by decide⟩
  show (Agents.runGraph o (initialState q)).2 + (Agents.runGraph o (initialState q)).2 = _
  omega

/-- Claim C2 (counterexample): the claim says a completion response
parsing to fewer than N = 3 queries makes `query_analyser` fail and
advance to the error node.  In `main.py` a response with 2 parsed queries
instead advances to `search_executor` with both queries kept and no error
recorded. -/
theorem c2_counterexample :
    (MainApp.query_analyser (Except.ok [⟨"a", "ra"⟩, ⟨"b", "rb"⟩])
      (initialState "x")).current_step = "search_executor" ∧
    (MainApp.query_analyser (Except.ok [⟨"a", "ra"⟩, ⟨"b", "rb"⟩])
      (initialState "x")).search_queries = ["a", "b"] ∧
    (MainApp.query_analyser (Except.ok [⟨"a", "ra"⟩, ⟨"b", "rb"⟩])
      (initialState "x")).errors = [] :=
  ⟨rfl, rfl, rfl⟩

/-- Claim C2 (amended): in `main.py`, a parsed response makes
`query_analyser` keep the first `min 3` query strings — truncating
over-generation, never padding — and advance to `search_executor` even
when fewer than 3 queries were parsed; only a raising completion or parse
advances to the error node.  In `agents.py`, `query_analyser` keeps all
parsed queries without truncation. -/
theorem c2_query_analyser_truncates_no_minimum (qs : List SearchQuery)
    (e : String) (s : ResearchState) :
    MainApp.query_analyser (.ok qs) s =
      { s with search_queries := (qs.take 3).map (·.query),
               current_step := "search_executor" } ∧
    (MainApp.query_analyser (.ok qs) s).search_queries.length = min 3 qs.length ∧
    MainApp.query_analyser (.error e) s =
      { s with errors := s.errors ++ ["query_analyser: " ++ e],
               current_step := "error" } ∧
    Agents.query_analyser (.ok qs) s =
      { s with search_queries := qs.map (·.query),
               current_step := "search_executor" } := by
  refine ⟨rfl, ?_, rfl, rfl⟩
  simp [MainApp.query_analyser]

/-- Claim C3: in each pipeline, if a run ends with a non-empty error
list then it has at least one entry, the first entry is prefixed with the
failing stage name, and every field owned by a later stage still holds
its initial empty value.  Each conclusion is gated only on its own
pipeline failing: the two copies can diverge on the same oracle, since
`agents.py` searches every parsed query while `main.py` searches only the
first three. -/
theorem c3_failure_prefix_and_downstream_empty (o : Oracle) (q : String) :
    (((Agents.runGraph o (initialState q)).1).errors ≠ [] →
      1 ≤ ((Agents.runGraph o (initialState q)).1).errors.length ∧
      ∃ st e, st ∈ stageNames ∧
        ((Agents.runGraph o (initialState q)).1).errors.head? = some (st ++ ": " ++ e) ∧
        ownedAfterEmpty st (Agents.runGraph o (initialState q)).1) ∧
    (((MainApp.runGraph o (initialState q)).1).errors ≠ [] →
      1 ≤ ((MainApp.runGraph o (initialState q)).1).errors.length ∧
      ∃ st e, st ∈ stageNames ∧
        ((MainApp.runGraph o (initialState q)).1).errors.head? = some (st ++ ": " ++ e) ∧
        ownedAfterEmpty st (MainApp.runGraph o (initialState q)).1) :=
  ⟨agents_failure_isolated o q, main_failure_isolated o q⟩

/-- Witness for claim C3: with a query-analysis failure (`c3oracle`) both
pipelines end with one tagged error and empty downstream fields; with a
search failure on the fourth parsed query (`c3oracle4q`) only the
`agents.py` pipeline fails — and its error is tagged with the failing
stage while downstream fields stay empty — whereas the `main.py`
pipeline ends with no errors at all. -/
theorem c3_failure_prefix_witness :
    (1 ≤ ((Agents.runGraph c3oracle (initialState "x")).1).errors.length ∧
      ∃ st e, st ∈ stageNames ∧
        ((Agents.runGraph c3oracle (initialState "x")).1).errors.head? =
          some (st ++ ": " ++ e) ∧
        ownedAfterEmpty st (Agents.runGraph c3oracle (initialState "x")).1) ∧
    (1 ≤ ((MainApp.runGraph c3oracle (initialState "x")).1).errors.length ∧
      ∃ st e, st ∈ stageNames ∧
        ((MainApp.runGraph c3oracle (initialState "x")).1).errors.head? =
          some (st ++ ": " ++ e) ∧
        ownedAfterEmpty st (MainApp.runGraph c3oracle (initialState "x")).1) ∧
    (1 ≤ ((Agents.runGraph c3oracle4q (initialState "x")).1).errors.length ∧
      ∃ st e, st ∈ stageNames ∧
        ((Agents.runGraph c3oracle4q (initialState "x")).1).errors.head? =
          some (st ++ ": " ++ e) ∧
        ownedAfterEmpty st (Agents.runGraph c3oracle4q (initialState "x")).1) ∧
    ((Agents.runGraph c3oracle4q (initialState "x")).1).errors =
      ["search_executor: boom"] ∧
    ((MainApp.runGraph c3oracle4q (initialState "x")).1).errors = [] :=
  ⟨(c3_failure_prefix_and_downstream_empty c3oracle "x").1 (by decide),
   (c3_failure_prefix_and_downstream_empty c3oracle "x").2 (by decide),
   (c3_failure_prefix_and_downstream_empty c3oracle4q "x").1 (by decide),
   by decide, by decide⟩

/-- Claim C4: `search_executor` is all-or-nothing — if any query in the
state fails to search, `search_results` is left exactly as it was (no
half-filled list is kept), one `"search_executor: "`-tagged entry is
appended to `errors`, and the stage advances to the error node. -/
theorem c4_search_executor_all_or_nothing
    (search : String → Except String (List SearchResult)) (s : ResearchState)
    (h : ∃ q ∈ s.search_queries, ∃ e, search q = .error e) :
    (search_executor search s).search_results = s.search_results ∧
    (search_executor search s).current_step = "error" ∧
    ∃ e, (search_executor search s).errors = s.errors ++ ["search_executor: " ++ e] := by
  rcases runSearches_error search s.search_queries h with ⟨e, he⟩
  unfold search_executor
  rw [he]
  exact ⟨rfl, rfl, e, rfl⟩

/-- Witness for claim C4: the first query succeeds and the second raises,
yet `search_results` stays at its initial empty value. -/
theorem c4_search_executor_witness :
    (search_executor c4search c4state).search_results = [] ∧
    (search_executor c4search c4state).current_step = "error" ∧
    ∃ e, (search_executor c4search c4state).errors = ["search_executor: " ++ e] :=
  c4_search_executor_all_or_nothing c4search c4state
    ⟨"q2", by decide, "transport failure", rfl⟩

/-- Claim C5: when every search succeeds, `search_executor` sets
`search_results` to the query-major concatenation of the per-query result
lists — all results of query i precede all results of query i+1. -/
theorem c5_search_executor_query_major (res : String → List SearchResult)
    (search : String → Except String (List SearchResult)) (s : ResearchState)
    (h : ∀ q ∈ s.search_queries, search q = .ok (res q)) :
    search_executor search s =
      { s with search_results := (s.search_queries.map res).flatten,
               current_step := "content_synthesiser" } := by
  unfold search_executor
  rw [runSearches_ok res search s.search_queries h]

/-- Witness for claim C5: queries `q1` and `q2` returning `[r1a, r1b]`
and `[r2a]` produce `search_results = [r1a, r1b, r2a]`. -/
theorem c5_search_executor_witness :
    (search_executor (fun q => .ok (c5res q)) c5state).search_results =
      [c5r1a, c5r1b, c5r2a] ∧
    (search_executor (fun q => .ok (c5res q)) c5state).current_step =
      "content_synthesiser" := by
  have h := c5_search_executor_query_major c5res (fun q => .ok (c5res q)) c5state
    (fun q _ => rfl)
  rw [h]
  exact ⟨rfl, rfl⟩

/-- Claim C6: `error_handler` changes only `current_step`, setting it to
`"complete"`; in particular `errors` is neither cleared nor reordered,
and in both graphs the edge map of the error node routes `"complete"`
directly to END, so Complete is the only reachable next tag. -/
theorem c6_error_handler_only_sets_complete_tag (s : ResearchState) :
    error_handler s = { s with current_step := "complete" } ∧
    (error_handler s).errors = s.errors ∧
    (error_handler s).current_step = "complete" :=
  ⟨rfl, rfl, rfl⟩

/-- Claim C7: for every oracle and question, both pipelines terminate
with the `"complete"` tag (raising never escapes a stage: every
collaborator failure is consumed inside the stage as an `errors` entry),
and the returned dictionary carries exactly the fields of the final
state, including the full error list. -/
theorem c7_run_terminates_at_complete (o : Oracle) (q : String) :
    ((Agents.runGraph o (initialState q)).1).current_step = "complete" ∧
    ((MainApp.runGraph o (initialState q)).1).current_step = "complete" ∧
    (Agents.run_research_workflow o q).1 =
      toResult (Agents.runGraph o (initialState q)).1 ∧
    (MainApp.run_research_workflow o q).1 =
      toResult (MainApp.runGraph o (initialState q)).1 :=
  ⟨agents_final_step_complete o (initialState q),
   main_final_step_complete o (initialState q), rfl, rfl⟩

/-- Claim C8: `user_query` is set once at state creation and never
mutated — every stage of both pipelines preserves it, and the
`original_query` of the returned dictionary equals the question passed to
`run_research_workflow`. -/
theorem c8_user_query_never_mutated (lq : Except String (List SearchQuery))
    (lc : Except String ResearchSummary) (lf : Except String (List FollowUpQuestion))
    (search : String → Except String (List SearchResult))
    (s : ResearchState) (o : Oracle) (q : String) :
    (Agents.query_analyser lq s).user_query = s.user_query ∧
    (MainApp.query_analyser lq s).user_query = s.user_query ∧
    (search_executor search s).user_query = s.user_query ∧
    (content_synthesiser lc s).user_query = s.user_query ∧
    (Agents.follow_up_generator lf s).user_query = s.user_query ∧
    (MainApp.follow_up_generator lf s).user_query = s.user_query ∧
    (error_handler s).user_query = s.user_query ∧
    ((Agents.run_research_workflow o q).1).original_query = q ∧
    ((MainApp.run_research_workflow o q).1).original_query = q := by
  refine ⟨?_, ?_, ?_, ?_, ?_, ?_, rfl, ?_, ?_⟩
  · cases lq <;> rfl
  · cases lq <;> rfl
  · unfold search_executor; cases runSearches search s.search_queries <;> rfl
  · cases lc <;> rfl
  · cases lf <;> rfl
  · cases lf <;> rfl
  · show (toResult (Agents.runGraph o (initialState q)).1).original_query = q
    simp [toResult, agents_runGraph_user_query, initialState]
  · show (toResult (MainApp.runGraph o (initialState q)).1).original_query = q
    simp [toResult, main_runGraph_user_query, initialState]

/-- Claim C9: every run of either pipeline ends with at most one error
entry — the first failure appends exactly one entry and routes straight
to the error node, no later stage runs, and the error node appends
nothing. -/
theorem c9_errors_length_at_most_one (o : Oracle) (q : String) :
    ((Agents.runGraph o (initialState q)).1).errors.length ≤ 1 ∧
    ((MainApp.runGraph o (initialState q)).1).errors.length ≤ 1 ∧
    ((Agents.run_research_workflow o q).1).errors.length ≤ 1 ∧
    ((MainApp.run_research_workflow o q).1).errors.length ≤ 1 :=
  ⟨agents_final_errors_len o (initialState q) rfl,
   main_final_errors_len o (initialState q) rfl,
   agents_final_errors_len o (initialState q) rfl,
   main_final_errors_len o (initialState q) rfl⟩

/-- Claim C10: `SerperSearchTool.invoke` is total over any successful
response body — a missing `organic` key yields the empty list, at most
`k` entries are returned, and each taken item is mapped in place (never
skipped) with its possibly missing `title`, `link`, `snippet` stored as
`None` values under the keys `title`, `url`, `content`. -/
theorem c10_serper_invoke_total (k : Nat) (data : SerperResponse) :
    (data.organic = none → SerperSearchTool.invoke k data = []) ∧
    (SerperSearchTool.invoke k data).length ≤ k ∧
    (∀ i : Nat, (SerperSearchTool.invoke k data)[i]? =
      ((data.organic.getD []).take k)[i]?.map
        (fun item => { title := item.title, url := item.link, content := item.snippet })) := by
  refine ⟨?_, ?_, ?_⟩
  · intro h; simp [SerperSearchTool.invoke, h]
  · simp [SerperSearchTool.invoke]
  · intro i; simp [SerperSearchTool.invoke, ← List.map_take, List.getElem?_map]

/-- Witness for claim C10: a missing `organic` key yields `[]`, and with
`k = 2` over three items the fully empty first item is kept (with `None`
fields) while the third item is cut off. -/
theorem c10_serper_invoke_witness :
    SerperSearchTool.invoke 2 { organic := none } = [] ∧
    SerperSearchTool.invoke 2 c10data =
      [{ title := none, url := none, content := none },
       { title := some "t1", url := some "l1", content := some "s1" }] :=
  ⟨(c10_serper_invoke_total 2 { organic := none }).1 rfl, rfl⟩
